import Mathlib

/-!
Verification development for the credlock authentication service.

The repository contains two parallel code generations of the credential
and session core:

* the tenant-scoped generation, in "src/services/SessionService.ts"
  (which concatenates the session service and the tenant-scoped user
  service) — modelled below in the "Tenant" section;
* the single-email-key generation, in the unnamed user-service file
  ("part_006") — modelled below in the "SingleKey" section.

Shared helpers ("helpers/user", "part_005") are modelled once.

Times are modelled as integers (milliseconds since epoch); durations are
integers.  Database rows are Lean structures, stores are lists of rows,
and every service operation is an explicit state-passing function.
Cryptographic collaborators that live outside the core (the deterministic
token digest "hashData" from "utils/crypto", the salted password hash,
and the bcrypt comparison) are passed in as function parameters: the
theorems hold for every instantiation, and witnesses instantiate them
with concrete functions.
-/

namespace Credlock

/-- Error kinds raised by the core via throwError, or by the store client.
Each constructor corresponds to one concrete error site in the source:

* invalidOrExpiredRefreshToken — "Invalid or expired refresh token"
* userNotFound — "User not found" (refresh path, data-integrity fallback)
* recordNotFound — the store client's record-not-found error (Prisma
  P2025), raised by a unique-key delete or update of a missing row
* invalidOrExpiredEmailToken — "Invalid or expired email verification
  token" (403)
* emailAlreadyInUse — "Email address is already in use" (409)
* invalidOrExpiredResetToken — "Invalid or expired password reset token"
* linkedAccount p — "This account is linked to p. ..." (403)
* emailNotVerified — "Please verify your email before logging in" (403)
* accountLocked — lockout error (423 in the tenant generation, 403 in
  the single-email-key generation)
* invalidEmailOrPassword — "Invalid email or password!" (401,
  single-email-key generation)
* noAccountWithEmail — "Don't have an account with that email" (404,
  single-email-key generation)
* userNotFoundById — "User not found" (404, getUserById)
-/
inductive AuthError where
  | invalidOrExpiredRefreshToken
  | userNotFound
  | recordNotFound
  | invalidOrExpiredEmailToken
  | emailAlreadyInUse
  | invalidOrExpiredResetToken
  | linkedAccount (provider : String)
  | emailNotVerified
  | accountLocked
  | invalidEmailOrPassword
  | noAccountWithEmail
  | userNotFoundById
  deriving Repr, DecidableEq

/-- Security configuration (config.security): the failed-login threshold
maxLoginAttempts and the lock duration loginLockTime (minutes). -/
structure Config where
  maxLoginAttempts : Nat
  loginLockTime : Int
  deriving Repr, DecidableEq

/-- Whitespace trim on both ends (the JS string trim, applied by the
source to email addresses before lookups), modelled executably over the
character list. -/
def trim (s : String) : String :=
  ⟨((s.data.dropWhile Char.isWhitespace).reverse.dropWhile Char.isWhitespace).reverse⟩

/-! ## Shared helpers (helpers/user, "part_005") -/

/-- Compare an input password with the stored hashed password
("part_005", comparePassword).  The source reads:
if (!hash) return false; return bcrypt.compare(input, hash);
JS truthiness makes both a null hash and an empty-string hash return
false without invoking bcrypt.  The bcrypt comparison itself is the
external collaborator bcryptCompare. -/
def comparePassword (bcryptCompare : String → String → Bool)
    (hash : Option String) (input : String) : Bool :=
  match hash with
  | none => false
  | some h => if h = "" then false else bcryptCompare input h

/-- Check if the account is currently locked ("part_005",
isAccountLocked): lockedUntil is non-null (a Date object is always
truthy) and dayjs(lockedUntil).isAfter(now), i.e. now < lockedUntil
strictly. -/
def isAccountLocked (lockedUntil : Option Int) (now : Int) : Bool :=
  match lockedUntil with
  | none => false
  | some t => decide (now < t)

/-! ## Session store (SessionService, tenant-scoped generation)

Sessions are keyed by the digest of their refresh token; the schema puts
a unique index on the refresh-token digest, so at most one row carries a
given digest and a unique-key delete by digest removes exactly the rows
whose digest matches. -/

/-- One row of the sessions table: owning user, digest of the refresh
token (the plaintext is never stored), and expiry instant. -/
structure Session where
  userId : String
  refreshTokenHash : String
  expiresAt : Int
  deriving Repr, DecidableEq

/-- The session service's view of the store: the ids of existing users
(the join target of the session's user relation) and the session rows. -/
structure SessionStore where
  users : List String
  sessions : List Session
  deriving Repr, DecidableEq

/-- Token pair returned to the caller: signed access token and plaintext
refresh token (returned exactly once). -/
structure TokenPair where
  accessToken : String
  refreshToken : String
  deriving Repr, DecidableEq

/-- The findFirst lookup of refreshAccessToken: session whose stored
digest equals the digest of the presented token and whose expiresAt is
strictly greater than now. -/
def sessionFindFirst (hashData : String → String) (token : String)
    (now : Int) (st : SessionStore) : Option Session :=
  st.sessions.find? fun s =>
    s.refreshTokenHash == hashData token && decide (now < s.expiresAt)

/-- Revoke refresh token (SessionService.revokeRefreshToken): a
unique-key delete of the session row whose stored digest matches the
digest of the presented token.  The store client raises its
record-not-found error when no row matches (Prisma delete on a missing
unique row throws P2025); when a row matches, exactly the matching rows
are removed (the unique index on the digest makes this the single
matching row). -/
def revokeRefreshToken (hashData : String → String) (token : String)
    (st : SessionStore) : Except AuthError SessionStore :=
  let h := hashData token
  if st.sessions.any (fun s => s.refreshTokenHash == h) then
    .ok { st with sessions := st.sessions.filter fun s => s.refreshTokenHash != h }
  else
    .error .recordNotFound

/-- Create session (SessionService.createSession): generates a fresh
random refresh token (passed in as freshToken), stores only its digest,
and sets expiry now + refresh lifetime.  Returns the plaintext token. -/
def createSession (hashData : String → String) (userId freshToken : String)
    (now refreshLifetime : Int) (st : SessionStore) : SessionStore × String :=
  ({ st with
      sessions :=
        { userId := userId
          refreshTokenHash := hashData freshToken
          expiresAt := now + refreshLifetime } :: st.sessions },
   freshToken)

/-- Generate token pair (SessionService.generateTokenPair): signs an
access token for the user (sign is the external JWT collaborator) and
creates a session for the refresh token. -/
def generateTokenPair (hashData sign : String → String)
    (userId freshToken : String) (now refreshLifetime : Int)
    (st : SessionStore) : SessionStore × TokenPair :=
  let accessToken := sign userId
  let res := createSession hashData userId freshToken now refreshLifetime st
  (res.1, { accessToken := accessToken, refreshToken := res.2 })

/-- Refresh access token (SessionService.refreshAccessToken): looks up
the session by token digest with expiresAt strictly greater than now;
fails invalidOrExpiredRefreshToken when none matches; fails userNotFound
when the joined user row is missing; otherwise deletes the old session
row and only then issues a brand-new token pair whose fresh refresh
token is freshToken. -/
def refreshAccessToken (hashData sign : String → String)
    (token freshToken : String) (now refreshLifetime : Int)
    (st : SessionStore) : Except AuthError (SessionStore × TokenPair) :=
  match sessionFindFirst hashData token now st with
  | none => .error .invalidOrExpiredRefreshToken
  | some s =>
    if st.users.contains s.userId then
      match revokeRefreshToken hashData token st with
      | .error e => .error e
      | .ok st2 =>
        .ok (generateTokenPair hashData sign s.userId freshToken now refreshLifetime st2)
    else
      .error .userNotFound

/-- Revoke all user sessions (SessionService.revokeAllUserSessions):
deleteMany of every session row owned by the user; a deleteMany never
raises on an empty match. -/
def revokeAllUserSessions (userId : String) (st : SessionStore) : SessionStore :=
  { st with sessions := st.sessions.filter fun s => s.userId != userId }

/-! ## Tenant-scoped generation: user identity store

The tenant-scoped user service (the second half of the concatenated
"SessionService.ts" source file) keeps one user row per (email,
serviceId), with one-to-one satellite records emailInfo, passwordInfo
and lockoutInfo. -/

/-- Email credential state (email_info row), tenant-scoped generation. -/
structure EmailInfo where
  isVerified : Bool
  verificationToken : Option String
  verificationExpires : Option Int
  pendingEmail : Option String
  provider : Option String
  deriving Repr, DecidableEq

/-- Password credential state (password_info row). -/
structure PasswordInfo where
  hash : Option String
  resetToken : Option String
  resetExpires : Option Int
  deriving Repr, DecidableEq

/-- Lockout state (lockout_info row), tenant-scoped generation: the
isLocked flag is a cache, lockedUntil the authoritative bound. -/
structure LockoutInfo where
  isLocked : Bool
  lockedUntil : Option Int
  failedAttemptCount : Nat
  deriving Repr, DecidableEq

/-- A user row with its one-to-one satellite records (the userInclude
query shape). -/
structure UserDetails where
  id : String
  email : String
  serviceId : String
  lastLoginAt : Option Int
  emailInfo : Option EmailInfo
  passwordInfo : Option PasswordInfo
  lockoutInfo : Option LockoutInfo
  deriving Repr, DecidableEq

/-- State of the tenant-scoped generation: the users table (with
satellites) and the sessions table. -/
structure TState where
  users : List UserDetails
  sessions : List Session
  deriving Repr, DecidableEq

/-- Replace the row of the user with the given id (a Prisma update by
unique id). -/
def TState.updateUser (st : TState) (userId : String)
    (f : UserDetails → UserDetails) : TState :=
  { st with users := st.users.map fun u => if u.id == userId then f u else u }

/-- Increment failed login attempts (tenant-scoped
incrementFailedLoginAttempts).  newAttempts is the in-memory record's
counter plus one (0 when no record exists); shouldLock compares against
config.security.maxLoginAttempts; the upsert writes the new counter and
the isLocked flag, and writes lockedUntil = now + loginLockTime only
when shouldLock (the conditional spread leaves lockedUntil untouched in
the update branch, and at its null default in the create branch). -/
def incrementFailedLoginAttempts (cfg : Config) (now : Int)
    (lockout : Option LockoutInfo) : LockoutInfo :=
  let newAttempts := (match lockout with
    | some l => l.failedAttemptCount
    | none => 0) + 1
  let shouldLock := decide (cfg.maxLoginAttempts ≤ newAttempts)
  match lockout with
  | some l =>
      { l with
          failedAttemptCount := newAttempts
          isLocked := shouldLock
          lockedUntil :=
            if shouldLock then some (now + cfg.loginLockTime) else l.lockedUntil }
  | none =>
      { failedAttemptCount := newAttempts
        isLocked := shouldLock
        lockedUntil :=
          if shouldLock then some (now + cfg.loginLockTime) else none }

/-- Reset failed login attempts (tenant-scoped
resetFailedLoginAttempts): update the lockout row to counter 0,
unlocked, lockedUntil null. -/
def resetFailedLoginAttempts (st : TState) (userId : String) : TState :=
  st.updateUser userId fun u =>
    { u with
        lockoutInfo := u.lockoutInfo.map fun l =>
          { l with failedAttemptCount := 0, isLocked := false, lockedUntil := none } }

/-- The tenant-scoped generation calls isAccountLocked on the whole user
record.  Modelled from the spec: the tenant-scoped helper is not under
src (only its callers and its tests are); the spec defines currently
locked as lockedUntil present and strictly in the future, and the
helper's test additionally requires the cached isLocked flag, so the
check is lockoutInfo present, isLocked set, and lockedUntil strictly
after now. -/
def isAccountLockedUser (u : UserDetails) (now : Int) : Bool :=
  match u.lockoutInfo with
  | none => false
  | some l => l.isLocked && isAccountLocked l.lockedUntil now

/-- Outcome of authenticateUser when it returns instead of throwing:
the found user (none when the account is absent) and the isValid flag. -/
structure AuthOutcome where
  user : Option UserDetails
  isValid : Bool
  deriving Repr, DecidableEq

/-- Authenticate a user (tenant-scoped authenticateUser).  Looks up the
user by trimmed email and serviceId; returns (null, invalid) when
absent.  Then, in source order: throws linkedAccount when
emailInfo.provider is truthy (non-null and non-empty) and
passwordInfo.hash is falsy (record missing, null, or empty string);
throws emailNotVerified when the email is not verified; throws
accountLocked when the lockout helper reports locked; on password
mismatch increments the failed-login counter (an upsert on the lockout
row) and returns (user, invalid); on match resets the counter when it
was non-zero, stamps lastLoginAt, and returns (user, valid). -/
def authenticateUser (bcryptCompare : String → String → Bool)
    (cfg : Config) (now : Int) (st : TState)
    (email password serviceId : String) :
    Except AuthError (TState × AuthOutcome) :=
  match st.users.find? fun u => u.email == trim email && u.serviceId == serviceId with
  | none => .ok (st, { user := none, isValid := false })
  | some u =>
    let providerTruthy := match u.emailInfo with
      | some e => (match e.provider with
        | some p => p ≠ ""
        | none => false : Bool)
      | none => false
    let hashFalsy := match u.passwordInfo with
      | some p => (match p.hash with
        | some h => h = ""
        | none => true : Bool)
      | none => true
    if providerTruthy && hashFalsy then
      .error (.linkedAccount (match u.emailInfo with
        | some e => e.provider.getD ""
        | none => ""))
    else if !(match u.emailInfo with | some e => e.isVerified | none => false) then
      .error .emailNotVerified
    else if isAccountLockedUser u now then
      .error .accountLocked
    else if !comparePassword bcryptCompare (u.passwordInfo.bind (·.hash)) password then
      let st1 := st.updateUser u.id fun v =>
        { v with lockoutInfo := some (incrementFailedLoginAttempts cfg now v.lockoutInfo) }
      .ok (st1, { user := some u, isValid := false })
    else
      let st1 :=
        if (match u.lockoutInfo with | some l => l.failedAttemptCount | none => 0) > 0 then
          resetFailedLoginAttempts st u.id
        else st
      let st2 := st1.updateUser u.id fun v => { v with lastLoginAt := some now }
      .ok (st2, { user := some u, isValid := true })

/-- Send password reset email (tenant-scoped sendPasswordResetEmail):
looks up the user by email and tenant; when absent, returns with no
error, no store change and no email sent; otherwise upserts the
password row with the digest of a fresh reset token and a 30-minute
expiry, and sends the reset email.  The result carries the new state,
the list of addresses emailed, and the error raised, if any. -/
def sendPasswordResetEmail (hashData : String → String)
    (freshResetToken : String) (now : Int) (st : TState)
    (email service : String) : TState × List String × Option AuthError :=
  match st.users.find? fun u => u.email == email && u.serviceId == service with
  | none => (st, [], none)
  | some u =>
    let st1 := st.updateUser u.id fun v =>
      { v with
          passwordInfo := some (match v.passwordInfo with
            | some p =>
              { p with
                  resetToken := some (hashData freshResetToken)
                  resetExpires := some (now + 30) }
            | none =>
              { hash := none
                resetToken := some (hashData freshResetToken)
                resetExpires := some (now + 30) }) }
    (st1, [email], none)

/-- The row updates of the tenant-scoped resetPasswordWithToken,
applied to the found user's row: overwrite the password hash and clear
the reset token and expiry; clear the lockout row only when the
isLocked flag read from the found row is set; flip the row to verified
(clearing the verification token and expiry) only when the found row
was unverified. -/
def applyResetUpdates (newHash : String) (isLocked isEmailUnverified : Bool)
    (v : UserDetails) : UserDetails :=
  { v with
      passwordInfo := some
        { hash := some newHash, resetToken := none, resetExpires := none }
      lockoutInfo :=
        if isLocked then
          v.lockoutInfo.map fun l =>
            { l with isLocked := false, lockedUntil := none, failedAttemptCount := 0 }
        else v.lockoutInfo
      emailInfo :=
        if isEmailUnverified then
          v.emailInfo.map fun e =>
            { e with
                isVerified := true
                verificationToken := none
                verificationExpires := none }
        else v.emailInfo }

/-- Reset password with token (tenant-scoped resetPasswordWithToken):
finds the password row whose stored reset-token digest matches the
presented token with an unexpired resetExpires; when none matches,
fails invalidOrExpiredResetToken.  Otherwise applies the reset updates
to the user's row and finally revokes every session of the user. -/
def resetPasswordWithToken (hashData : String → String)
    (newHash : String) (token : String) (now : Int) (st : TState) :
    Except AuthError TState :=
  let hashedToken := hashData token
  match st.users.find? fun u =>
      match u.passwordInfo with
      | some p =>
        p.resetToken == some hashedToken &&
          (match p.resetExpires with
            | some e => decide (now < e)
            | none => false)
      | none => false with
  | none => .error .invalidOrExpiredResetToken
  | some u =>
    let st1 := st.updateUser u.id
      (applyResetUpdates newHash
        (match u.lockoutInfo with
          | some l => l.isLocked
          | none => false)
        (!(match u.emailInfo with
          | some e => e.isVerified
          | none => false)))
    .ok { st1 with sessions := st1.sessions.filter fun s => s.userId != u.id }

/-! ## Tenant-scoped generation: email verification as atomic units

To reason about interruption, verifyEmailWithToken is modelled in two
stages: a read phase that validates the token and produces the sequence
of atomic units to execute, and an apply phase.  Each atomic unit is a
list of row writes committed together; the source wraps its two updates
in one prisma transaction, so it produces a single unit.  An
interruption before commit corresponds to applying a strict prefix of
the unit sequence. -/

/-- A single row write inside the verify-email flow. -/
inductive TWrite where
  | promoteEmail (userId email : String)
  | markVerifiedClear (userId : String)
  deriving Repr, DecidableEq

/-- Apply one row write: promoteEmail sets the user's primary email;
markVerifiedClear flips isVerified and clears the verification token,
expiry, and pending email (the tenant-scoped emailInfo update). -/
def applyTWrite (w : TWrite) (st : TState) : TState :=
  match w with
  | .promoteEmail uid e => st.updateUser uid fun u => { u with email := e }
  | .markVerifiedClear uid =>
    st.updateUser uid fun u =>
      { u with
          emailInfo := u.emailInfo.map fun ei =>
            { ei with
                isVerified := true
                verificationToken := none
                verificationExpires := none
                pendingEmail := none } }

/-- Apply one atomic unit (all its writes commit together). -/
def applyTUnit (ws : List TWrite) (st : TState) : TState :=
  ws.foldl (fun s w => applyTWrite w s) st

/-- Apply a sequence of atomic units in order. -/
def applyTUnits (units : List (List TWrite)) (st : TState) : TState :=
  units.foldl (fun s ws => applyTUnit ws s) st

/-- Read phase of tenant-scoped verifyEmailWithToken: finds the
email-credential row whose stored verification-token digest matches the
presented token with an unexpired expiry; fails
invalidOrExpiredEmailToken when none matches.  When a pending email is
in flight, fails emailAlreadyInUse when any other user row already has
that address.  Otherwise yields the writes: the conditional
primary-email promotion and the verified-flag update, wrapped together
in one transaction (a single atomic unit). -/
def verifyEmailUnits (hashData : String → String) (token : String)
    (now : Int) (st : TState) : Except AuthError (List (List TWrite)) :=
  let hashedToken := hashData token
  match st.users.find? fun u =>
      match u.emailInfo with
      | some e =>
        e.verificationToken == some hashedToken &&
          (match e.verificationExpires with
            | some x => decide (now < x)
            | none => false)
      | none => false with
  | none => .error .invalidOrExpiredEmailToken
  | some u =>
    match u.emailInfo.bind (·.pendingEmail) with
    | some pe =>
      if st.users.any (fun v => v.email == pe && v.id != u.id) then
        .error .emailAlreadyInUse
      else
        .ok [[.promoteEmail u.id pe, .markVerifiedClear u.id]]
    | none => .ok [[.markVerifiedClear u.id]]

/-- Tenant-scoped verifyEmailWithToken, end to end: the read phase
followed by the full application of all units. -/
def verifyEmailWithToken (hashData : String → String) (token : String)
    (now : Int) (st : TState) : Except AuthError TState :=
  match verifyEmailUnits hashData token now st with
  | .error e => .error e
  | .ok units => .ok (applyTUnits units st)

/-! ## Single-email-key generation ("part_006")

The earlier generation keys users by a globally unique email and has no
tenant column; its lockout row has no isLocked flag (lockedUntil alone
decides), and its token columns are named token and tokenExpires. -/

namespace SingleKey

/-- Email token expiry, EMAIL_TOKEN_EXPIRY_IN_MINUTES (constants). -/
def emailTokenExpiryMinutes : Int := 1440

/-- Reset token expiry, PASSWORD_TOKEN_EXPIRY_IN_MINUTES (constants). -/
def passwordTokenExpiryMinutes : Int := 30

/-- Email credential state, single-email-key generation. -/
structure EmailInfo where
  isVerified : Bool
  token : Option String
  tokenExpires : Option Int
  pendingEmail : Option String
  deriving Repr, DecidableEq

/-- Password credential state, single-email-key generation. -/
structure PasswordInfo where
  hash : Option String
  token : Option String
  tokenExpires : Option Int
  deriving Repr, DecidableEq

/-- Lockout state, single-email-key generation: no cached isLocked
flag. -/
structure LockoutInfo where
  failedAttemptCount : Nat
  lockedUntil : Option Int
  deriving Repr, DecidableEq

/-- A user row with satellites, single-email-key generation. -/
structure User where
  id : String
  email : String
  provider : Option String
  emailInfo : Option EmailInfo
  passwordInfo : Option PasswordInfo
  lockoutInfo : Option LockoutInfo
  deriving Repr, DecidableEq

/-- State of the single-email-key generation. -/
structure State where
  users : List User
  sessions : List Session
  deriving Repr, DecidableEq

/-- Replace the row of the user with the given id. -/
def State.updateUser (st : State) (userId : String)
    (f : User → User) : State :=
  { st with users := st.users.map fun u => if u.id == userId then f u else u }

/-- Delete a user by id (deleteUserById); the foreign keys cascade, so
the user's satellite records and sessions go with the row. -/
def deleteUserById (userId : String) (st : State) : State :=
  { users := st.users.filter fun u => u.id != userId
    sessions := st.sessions.filter fun s => s.userId != userId }

/-- Check if a user exists by email (checkUserExists): finds the row
with the given email; when its email credential exists and is verified,
reports the user as existing; otherwise — unverified or missing email
credential — deletes the account as a side effect and reports it as not
existing.  Returns the (possibly mutated) state together with the found
verified user, if any. -/
def checkUserExists (st : State) (email : String) : State × Option User :=
  match st.users.find? fun u => u.email == email with
  | none => (st, none)
  | some u =>
    if (match u.emailInfo with | some e => e.isVerified | none => false) then
      (st, some u)
    else
      (deleteUserById u.id st, none)

/-- Get user by id (getUserById); fails with the 404 user-not-found
error when absent. -/
def getUserById (userId : String) (st : State) : Except AuthError User :=
  match st.users.find? fun u => u.id == userId with
  | some u => .ok u
  | none => .error .userNotFoundById

/-- Increment failed login attempts (single-email-key
incrementFailedLoginAttempts): reads the lockout row, takes its counter
plus one (1 when the row is absent), locks when the counter reaches
maxLoginAttempts, and upserts the row writing lockedUntil = now +
loginLockTime when locking and null otherwise — both the update and the
create branch write the lockedUntil column unconditionally. -/
def incrementFailedLoginAttempts (cfg : Config) (now : Int)
    (lockout : Option LockoutInfo) : LockoutInfo :=
  let failedAttemptCount := match lockout with
    | some l => l.failedAttemptCount + 1
    | none => 1
  let isLocked := decide (cfg.maxLoginAttempts ≤ failedAttemptCount)
  { failedAttemptCount := failedAttemptCount
    lockedUntil := if isLocked then some (now + cfg.loginLockTime) else none }

/-- Reset failed login attempts (single-email-key
resetFailedLoginAttempts): a deleteMany of the user's lockout row, so
the record is removed outright. -/
def resetFailedLoginAttempts (userId : String) (st : State) : State :=
  st.updateUser userId fun u => { u with lockoutInfo := none }

/-- Send password reset email (single-email-key sendPasswordResetEmail):
runs checkUserExists on the address — which deletes a matching
unverified account as a side effect — and, when no verified account is
found, raises the 404 no-account error (the deletion persists); when a
verified account exists, upserts the password row with the digest of a
fresh reset token and its 30-minute expiry and sends the email. -/
def sendPasswordResetEmail (hashData : String → String)
    (freshResetToken : String) (now : Int) (st : State)
    (email : String) : State × List String × Option AuthError :=
  let res := checkUserExists st email
  match res.2 with
  | none => (res.1, [], some .noAccountWithEmail)
  | some u =>
    let st1 := res.1.updateUser u.id fun v =>
      { v with
          passwordInfo := some (match v.passwordInfo with
            | some p =>
              { p with
                  token := some (hashData freshResetToken)
                  tokenExpires := some (now + passwordTokenExpiryMinutes) }
            | none =>
              { hash := none
                token := some (hashData freshResetToken)
                tokenExpires := some (now + passwordTokenExpiryMinutes) }) }
    (st1, [email], none)

/-- Reset password with token (single-email-key resetPasswordWithToken):
finds the password row by reset-token digest with an unexpired expiry,
else fails invalidOrExpiredResetToken; writes the new hash and clears
the token and expiry; deletes the lockout row (resetFailedLoginAttempts)
and revokes every session of the user.  The email credential row is not
touched. -/
def resetPasswordWithToken (hashData : String → String)
    (newHash : String) (token : String) (now : Int) (st : State) :
    Except AuthError State :=
  let hashedToken := hashData token
  match st.users.find? fun u =>
      match u.passwordInfo with
      | some p =>
        p.token == some hashedToken &&
          (match p.tokenExpires with
            | some e => decide (now < e)
            | none => false)
      | none => false with
  | none => .error .invalidOrExpiredResetToken
  | some u =>
    let st1 := st.updateUser u.id fun v =>
      { v with
          passwordInfo := some
            { hash := some newHash, token := none, tokenExpires := none } }
    let st2 := resetFailedLoginAttempts u.id st1
    .ok { st2 with sessions := st2.sessions.filter fun s => s.userId != u.id }

/-- A single row write inside the single-email-key verify-email flow. -/
inductive Write where
  | setEmail (userId email : String)
  | markVerified (userId : String)
  deriving Repr, DecidableEq

/-- Apply one row write: setEmail sets the user's primary email
(the first await of verifyEmailWithToken); markVerified flips
isVerified and clears the token and expiry — the single-email-key
generation's emailInfo update does not clear pendingEmail. -/
def applyWrite (w : Write) (st : State) : State :=
  match w with
  | .setEmail uid e => st.updateUser uid fun u => { u with email := e }
  | .markVerified uid =>
    st.updateUser uid fun u =>
      { u with
          emailInfo := u.emailInfo.map fun ei =>
            { ei with isVerified := true, token := none, tokenExpires := none } }

/-- Apply a sequence of writes in order; each write is its own await in
the source, with no surrounding transaction, so an interruption can
fall between any two of them. -/
def applyWrites (ws : List Write) (st : State) : State :=
  ws.foldl (fun s w => applyWrite w s) st

/-- Read phase of single-email-key verifyEmailWithToken: finds the
email-credential row by verification-token digest with an unexpired
expiry, else fails invalidOrExpiredEmailToken; then yields the write
sequence: the primary-email promotion (only when a pending email is in
flight) followed by the verified-flag update — two separate awaits, not
wrapped in a transaction. -/
def verifyEmailWrites (hashData : String → String) (token : String)
    (now : Int) (st : State) : Except AuthError (List Write) :=
  let hashedToken := hashData token
  match st.users.find? fun u =>
      match u.emailInfo with
      | some e =>
        e.token == some hashedToken &&
          (match e.tokenExpires with
            | some x => decide (now < x)
            | none => false)
      | none => false with
  | none => .error .invalidOrExpiredEmailToken
  | some u =>
    match u.emailInfo.bind (·.pendingEmail) with
    | some pe => .ok [.setEmail u.id pe, .markVerified u.id]
    | none => .ok [.markVerified u.id]

/-- Update email with verification (single-email-key
updateEmailWithVerification): loads the requesting user (404 when
absent), then runs checkUserExists on the new address — deleting a
matching unverified account as a side effect — and fails
emailAlreadyInUse when a verified account holds it; otherwise upserts
the requesting user's email credential with the pending email (trimmed)
and the digest and expiry of a fresh verification token, and sends the
verification email to the new address. -/
def updateEmailWithVerification (hashData : String → String)
    (freshToken : String) (now : Int) (st : State)
    (userId newEmail : String) : State × List String × Option AuthError :=
  match getUserById userId st with
  | .error e => (st, [], some e)
  | .ok _ =>
    let res := checkUserExists st newEmail
    match res.2 with
    | some _ => (res.1, [], some .emailAlreadyInUse)
    | none =>
      let st2 := res.1.updateUser userId fun v =>
        { v with
            emailInfo := some (match v.emailInfo with
              | some e =>
                { e with
                    pendingEmail := some (trim newEmail)
                    token := some (hashData freshToken)
                    tokenExpires := some (now + emailTokenExpiryMinutes) }
              | none =>
                { isVerified := false
                  token := some (hashData freshToken)
                  tokenExpires := some (now + emailTokenExpiryMinutes)
                  pendingEmail := some (trim newEmail) }) }
      (st2, [newEmail], none)

end SingleKey

/-! ## Shared proof infrastructure -/

/-- Updating the row carrying a given key with a key-preserving
transform and looking that key up afterwards finds exactly the
transformed row, provided the keys in the list are pairwise distinct. -/
theorem find_after_update {α : Type} (key : α → String) (f : α → α)
    (hf : ∀ v, key (f v) = key v) (l : List α) (u : α)
    (hmem : u ∈ l) (hnodup : (l.map key).Nodup) :
    (l.map fun v => if key v == key u then f v else v).find?
      (fun v => key v == key u) = some (f u) := by
  induction l with
  | nil => cases hmem
  | cons w ws ih =>
    simp only [List.map_cons, List.nodup_cons] at hnodup
    rcases List.mem_cons.mp hmem with rfl | hmem2
    · rw [List.map_cons,
        show (if key u == key u then f u else u) = f u from by simp,
        List.find?_cons_of_pos _ (by simp [hf])]
    · have hw : key w ≠ key u := by
        intro h
        exact hnodup.1 (h ▸ List.mem_map_of_mem key hmem2)
      rw [List.map_cons,
        show (if key w == key u then f w else w) = w from if_neg (by simpa using hw),
        List.find?_cons_of_neg _ (by simpa using hw)]
      exact ih hmem2 hnodup.2

/-- Mapping a key-preserving transform over a list leaves the list of
keys unchanged. -/
theorem keys_after_update {α : Type} (key : α → String) (f : α → α)
    (hf : ∀ v, key (f v) = key v) (l : List α) (u : α) :
    (l.map fun v => if key v == key u then f v else v).map key = l.map key := by
  induction l with
  | nil => rfl
  | cons w ws ih =>
    simp only [List.map_cons, ih]
    by_cases hw : key w == key u
    · rw [if_pos hw, hf]
    · rw [if_neg hw]

/-- Two successive single-row updates of the same user compose into one
update, provided the first one preserves the id. -/
theorem updateUser_comp_single (st : SingleKey.State) (uid : String)
    (f g : SingleKey.User → SingleKey.User)
    (hf : ∀ v, (f v).id = v.id) :
    (st.updateUser uid f).updateUser uid g =
      st.updateUser uid fun v => g (f v) := by
  simp only [SingleKey.State.updateUser, List.map_map]
  congr 1
  apply List.map_congr_left
  intro a _
  by_cases h : a.id == uid
  · simp [Function.comp, h, hf]
  · simp [Function.comp, h]

/-- On a successful token match, the tenant-scoped reset produces
exactly the store with the found user's row rewritten by the reset
updates and the user's sessions dropped. -/
theorem resetPasswordWithToken_found (hashData : String → String)
    (newHash token : String) (now : Int) (st : TState) (u : UserDetails)
    (hfind : st.users.find? (fun v =>
      match v.passwordInfo with
      | some p =>
        p.resetToken == some (hashData token) &&
          (match p.resetExpires with
            | some e => decide (now < e)
            | none => false)
      | none => false) = some u) :
    resetPasswordWithToken hashData newHash token now st =
      .ok { users := st.users.map fun v =>
              if v.id == u.id then
                applyResetUpdates newHash
                  (match u.lockoutInfo with
                    | some l => l.isLocked
                    | none => false)
                  (!(match u.emailInfo with
                    | some e => e.isVerified
                    | none => false)) v
              else v
            sessions := st.sessions.filter fun s => s.userId != u.id } := by
  simp only [resetPasswordWithToken]
  rw [hfind]
  rfl

/-- On a successful token match, the single-email-key reset produces
exactly the store with the found user's password row rewritten, the
lockout row deleted, and the user's sessions dropped. -/
theorem resetPasswordWithToken_found_single (hashData : String → String)
    (newHash token : String) (now : Int) (st : SingleKey.State)
    (u : SingleKey.User)
    (hfind : st.users.find? (fun v =>
      match v.passwordInfo with
      | some p =>
        p.token == some (hashData token) &&
          (match p.tokenExpires with
            | some e => decide (now < e)
            | none => false)
      | none => false) = some u) :
    SingleKey.resetPasswordWithToken hashData newHash token now st =
      .ok { users := st.users.map fun v =>
              if v.id == u.id then
                { v with
                    passwordInfo := some
                      { hash := some newHash, token := none, tokenExpires := none }
                    lockoutInfo := none }
              else v
            sessions := st.sessions.filter fun s => s.userId != u.id } := by
  simp only [SingleKey.resetPasswordWithToken]
  rw [hfind]
  dsimp only [SingleKey.resetFailedLoginAttempts]
  rw [updateUser_comp_single st u.id
    (fun v => { v with
      passwordInfo := some { hash := some newHash, token := none, tokenExpires := none } })
    (fun v => { v with lockoutInfo := none })
    (fun v => rfl)]
  rfl

/-! ## Claims -/

/-- C8: isAccountLocked lockedUntil returns true if and only if
lockedUntil is non-null and strictly greater than the current time; in
particular it is false on null, false exactly at the current instant,
true strictly before lockedUntil, and false at and after it. -/
theorem isAccountLocked_strict_bound (lu : Option Int) (now t : Int) :
    (isAccountLocked lu now = true ↔ ∃ u, lu = some u ∧ now < u) ∧
    isAccountLocked none now = false ∧
    isAccountLocked (some now) now = false ∧
    (now < t → isAccountLocked (some t) now = true) ∧
    (t ≤ now → isAccountLocked (some t) now = false) := by
  refine ⟨?_, rfl, by simp [isAccountLocked], ?_, ?_⟩
  · cases lu with
    | none => simp [isAccountLocked]
    | some u => simp [isAccountLocked]
  · intro h
    simpa [isAccountLocked] using h
  · intro h
    simp [isAccountLocked]
    omega

/-- C8 witness: a concrete lock bound 5 is locked at instant 3 and
unlocked at instant 7. -/
theorem isAccountLocked_strict_bound_witness :
    isAccountLocked (some 5) 3 = true ∧ isAccountLocked (some 5) 7 = false :=
  ⟨(isAccountLocked_strict_bound (some 5) 3 5).2.2.2.1 (by decide),
   (isAccountLocked_strict_bound (some 5) 7 5).2.2.2.2 (by decide)⟩

/-- C9 counterexample: revoking a refresh token when no matching session
row exists does not complete silently — the unique-key delete raises the
store client's record-not-found error on the empty session store, so the
operation is not no-op-safe as the claim states. -/
theorem revokeRefreshToken_absent_errors :
    revokeRefreshToken (fun s => s) "t1" { users := [], sessions := [] } =
      .error .recordNotFound := rfl

/-- C9 amended: revokeRefreshToken deletes exactly the session rows
whose stored digest matches the presented token (leaving all other rows
and the user table unchanged) when such a row exists; when no row
matches, the unique-key delete raises the record-not-found error
instead of completing as a silent no-op. -/
theorem revokeRefreshToken_delete_semantics (hashData : String → String)
    (token : String) (st : SessionStore) :
    ((∃ s ∈ st.sessions, s.refreshTokenHash = hashData token) →
      ∃ st2, revokeRefreshToken hashData token st = .ok st2 ∧
        st2.users = st.users ∧
        ∀ s, s ∈ st2.sessions ↔
          s ∈ st.sessions ∧ s.refreshTokenHash ≠ hashData token) ∧
    ((∀ s ∈ st.sessions, s.refreshTokenHash ≠ hashData token) →
      revokeRefreshToken hashData token st = .error .recordNotFound) := by
  constructor
  · rintro ⟨s, hmem, hs⟩
    have hany : st.sessions.any (fun x => x.refreshTokenHash == hashData token) = true :=
      List.any_eq_true.mpr ⟨s, hmem, by simp [hs]⟩
    refine ⟨{ st with
        sessions := st.sessions.filter fun x => x.refreshTokenHash != hashData token },
      ?_, rfl, ?_⟩
    · rw [revokeRefreshToken]
      rw [if_pos hany]
    · intro x
      simp [List.mem_filter]
  · intro hnone
    have hany : st.sessions.any (fun x => x.refreshTokenHash == hashData token) = false := by
      rw [List.any_eq_false]
      intro x hx
      simpa using hnone x hx
    rw [revokeRefreshToken]
    rw [if_neg (by simp [hany])]

/-- C9 witness: on a store holding one session whose digest does not
match the presented token, the amended theorem's absent branch applies
and the delete raises the record-not-found error. -/
theorem revokeRefreshToken_delete_semantics_witness :
    revokeRefreshToken (fun s => s) "t2"
      { users := ["u1"],
        sessions := [{ userId := "u1", refreshTokenHash := "t1", expiresAt := 9 }] } =
      .error .recordNotFound :=
  (revokeRefreshToken_delete_semantics (fun s => s) "t2"
    { users := ["u1"],
      sessions := [{ userId := "u1", refreshTokenHash := "t1", expiresAt := 9 }] }).2
    (by decide)

/-- C1: a refresh token is single-use.  When refreshAccessToken succeeds
on a presented token, the old session row is deleted before the new pair
is issued, so presenting the same plaintext token again — at any later
time, with any fresh token — fails with the invalid-or-expired error.
The hypothesis that the fresh token's digest differs from the presented
token's digest reflects the fresh cryptographically random token of the
new session. -/
theorem refreshToken_single_use (hashData sign : String → String)
    (token fresh fresh2 : String) (now now2 life life2 : Int)
    (st st2 : SessionStore) (pair : TokenPair)
    (hfresh : hashData fresh ≠ hashData token)
    (hok : refreshAccessToken hashData sign token fresh now life st = .ok (st2, pair)) :
    refreshAccessToken hashData sign token fresh2 now2 life2 st2 =
      .error .invalidOrExpiredRefreshToken := by
  rw [refreshAccessToken] at hok
  cases hfind : sessionFindFirst hashData token now st with
  | none => rw [hfind] at hok; cases hok
  | some s =>
    rw [hfind] at hok
    dsimp only at hok
    simp only [sessionFindFirst] at hfind
    have hmem := List.mem_of_find?_eq_some hfind
    have hpred := List.find?_some hfind
    simp only [Bool.and_eq_true, beq_iff_eq, decide_eq_true_eq] at hpred
    by_cases hu : st.users.contains s.userId
    · rw [if_pos hu] at hok
      have hany : st.sessions.any (fun x => x.refreshTokenHash == hashData token) = true :=
        List.any_eq_true.mpr ⟨s, hmem, by simp [hpred.1]⟩
      simp only [revokeRefreshToken] at hok
      rw [if_pos hany] at hok
      simp only [generateTokenPair, createSession, Except.ok.injEq, Prod.mk.injEq] at hok
      obtain ⟨hst2, -⟩ := hok
      rw [refreshAccessToken]
      have hnone : sessionFindFirst hashData token now2 st2 = none := by
        rw [sessionFindFirst, List.find?_eq_none]
        intro x hx
        rw [← hst2] at hx
        rcases List.mem_cons.mp hx with rfl | hx2
        · simp [hfresh]
        · have := (List.mem_filter.mp hx2).2
          simp only [bne_iff_ne, ne_eq] at this
          simp [this]
      rw [hnone]
    · rw [if_neg hu] at hok
      cases hok

/-- C1 witness: a concrete store with one user and one live session; the
first refresh succeeds, and presenting the consumed token again fails
with the invalid-or-expired error. -/
theorem refreshToken_single_use_witness :
    refreshAccessToken (fun s => s) (fun _ => "jwt") "t1" "t9" 0 7
      { users := ["u1"],
        sessions := [{ userId := "u1", refreshTokenHash := "t2", expiresAt := 7 }] } =
      .error .invalidOrExpiredRefreshToken :=
  refreshToken_single_use (fun s => s) (fun _ => "jwt") "t1" "t2" "t9" 0 0 7 7
    { users := ["u1"],
      sessions := [{ userId := "u1", refreshTokenHash := "t1", expiresAt := 9 }] }
    { users := ["u1"],
      sessions := [{ userId := "u1", refreshTokenHash := "t2", expiresAt := 7 }] }
    { accessToken := "jwt", refreshToken := "t2" }
    (by decide) rfl

/-- C2 counterexample: in the single-email-key generation, a failed
attempt below the threshold does not leave lockedUntil untouched — with
maxAttempts 5, a second failure on a record holding an existing future
lock bound 100 rewrites lockedUntil to null, clearing the lock. -/
theorem incrementFailed_clears_existing_lock :
    SingleKey.incrementFailedLoginAttempts
        { maxLoginAttempts := 5, loginLockTime := 15 } 0
        (some { failedAttemptCount := 1, lockedUntil := some 100 }) =
      { failedAttemptCount := 2, lockedUntil := none } ∧
    (2 : Nat) < 5 ∧
    (SingleKey.incrementFailedLoginAttempts
        { maxLoginAttempts := 5, loginLockTime := 15 } 0
        (some { failedAttemptCount := 1, lockedUntil := some 100 })).lockedUntil ≠
      some 100 :=
  ⟨rfl, by decide, by decide⟩

/-- C2 amended: on a failed password check the new counter is the old
counter plus one (1 when no lockout record pre-existed, created by the
upsert), and the account locks exactly when the new counter reaches
maxAttempts, setting lockedUntil to now plus the lock duration.  In the
tenant-scoped generation a below-threshold failure leaves lockedUntil
untouched; in the single-email-key generation the upsert instead writes
lockedUntil to null on every below-threshold failure, clearing any
existing future lock (and that generation has no cached locked flag). -/
theorem incrementFailedLoginAttempts_policy (cfg : Config) (now : Int)
    (l : LockoutInfo) (l6 : SingleKey.LockoutInfo) :
    ((incrementFailedLoginAttempts cfg now (some l)).failedAttemptCount =
        l.failedAttemptCount + 1 ∧
      (incrementFailedLoginAttempts cfg now none).failedAttemptCount = 1 ∧
      ((incrementFailedLoginAttempts cfg now (some l)).isLocked = true ↔
        cfg.maxLoginAttempts ≤ l.failedAttemptCount + 1) ∧
      (l.failedAttemptCount + 1 < cfg.maxLoginAttempts →
        (incrementFailedLoginAttempts cfg now (some l)).lockedUntil = l.lockedUntil) ∧
      (cfg.maxLoginAttempts ≤ l.failedAttemptCount + 1 →
        (incrementFailedLoginAttempts cfg now (some l)).isLocked = true ∧
        (incrementFailedLoginAttempts cfg now (some l)).lockedUntil =
          some (now + cfg.loginLockTime))) ∧
    ((SingleKey.incrementFailedLoginAttempts cfg now (some l6)).failedAttemptCount =
        l6.failedAttemptCount + 1 ∧
      (SingleKey.incrementFailedLoginAttempts cfg now none).failedAttemptCount = 1 ∧
      (l6.failedAttemptCount + 1 < cfg.maxLoginAttempts →
        (SingleKey.incrementFailedLoginAttempts cfg now (some l6)).lockedUntil = none) ∧
      (cfg.maxLoginAttempts ≤ l6.failedAttemptCount + 1 →
        (SingleKey.incrementFailedLoginAttempts cfg now (some l6)).lockedUntil =
          some (now + cfg.loginLockTime))) := by
  refine ⟨⟨rfl, rfl, ?_, ?_, ?_⟩, rfl, rfl, ?_, ?_⟩
  · simp [incrementFailedLoginAttempts]
  · intro h
    simp only [incrementFailedLoginAttempts]
    rw [if_neg (by simpa using Nat.not_le_of_lt h)]
  · intro h
    constructor
    · simp [incrementFailedLoginAttempts, h]
    · simp only [incrementFailedLoginAttempts]
      rw [if_pos (by simpa using h)]
  · intro h
    simp only [SingleKey.incrementFailedLoginAttempts]
    rw [if_neg (by simpa using Nat.not_le_of_lt h)]
  · intro h
    simp only [SingleKey.incrementFailedLoginAttempts]
    rw [if_pos (by simpa using h)]

/-- C2 witness: with threshold 5, a second failure in the tenant-scoped
generation keeps the existing lock bound 100, and a fifth failure in the
single-email-key generation locks until 0 + 15. -/
theorem incrementFailedLoginAttempts_policy_witness :
    (incrementFailedLoginAttempts { maxLoginAttempts := 5, loginLockTime := 15 } 0
        (some { isLocked := false, lockedUntil := some 100, failedAttemptCount := 1 })).lockedUntil =
      some 100 ∧
    (SingleKey.incrementFailedLoginAttempts { maxLoginAttempts := 5, loginLockTime := 15 } 0
        (some { failedAttemptCount := 4, lockedUntil := none })).lockedUntil =
      some (0 + 15) :=
  ⟨(incrementFailedLoginAttempts_policy ⟨5, 15⟩ 0
      ⟨false, some 100, 1⟩ ⟨1, some 100⟩).1.2.2.2.1 (by decide),
   (incrementFailedLoginAttempts_policy ⟨5, 15⟩ 0
      ⟨false, some 100, 1⟩ ⟨4, none⟩).2.2.2.2 (by decide)⟩

/-- An account row whose provider column holds the empty string — which
is non-null, but falsy for the JS truthiness test — with a null password
hash and a verified email.  Probes the linked-account gate. -/
def emptyProviderUser : UserDetails :=
  { id := "u1"
    email := "a@x"
    serviceId := "s1"
    lastLoginAt := none
    emailInfo := some
      { isVerified := true
        verificationToken := none
        verificationExpires := none
        pendingEmail := none
        provider := some "" }
    passwordInfo := some { hash := none, resetToken := none, resetExpires := none }
    lockoutInfo := none }

/-- The same row after one failed-login increment (the upsert creates a
lockout record with counter 1). -/
def emptyProviderUserAfter : UserDetails :=
  { emptyProviderUser with
      lockoutInfo := some
        { isLocked := false, lockedUntil := none, failedAttemptCount := 1 } }

/-- C5 counterexample: for an account with a non-null provider — the
empty string — and a null password hash, authenticateUser does not fail
with the Forbidden linked-account error: the truthiness test skips the
gate, the null-hash comparison fails, the failed-login counter is
incremented, and the call returns the invalid-credentials outcome. -/
theorem authenticate_empty_provider_not_gated :
    authenticateUser (fun _ _ => true)
        { maxLoginAttempts := 5, loginLockTime := 15 } 0
        { users := [emptyProviderUser], sessions := [] } "a@x" "pw" "s1" =
      .ok ({ users := [emptyProviderUserAfter], sessions := [] },
        { user := some emptyProviderUser, isValid := false }) ∧
    authenticateUser (fun _ _ => true)
        { maxLoginAttempts := 5, loginLockTime := 15 } 0
        { users := [emptyProviderUser], sessions := [] } "a@x" "pw" "s1" ≠
      .error (.linkedAccount "") :=
  ⟨rfl, fun h => Except.noConfusion h⟩

/-- C5 amended: for every account whose provider is a non-null,
non-empty string and whose stored password hash is null (the JS
truthiness reading of the gate), authenticateUser fails with the
Forbidden linked-account error naming that provider, before any other
check and for every supplied password; and comparePassword returns
false immediately on a null stored hash, for every underlying bcrypt
oracle. -/
theorem authenticate_linked_account_gate (bc : String → String → Bool)
    (cfg : Config) (now : Int) (st : TState)
    (email password serviceId : String) (u : UserDetails) (p : String)
    (hfind : st.users.find?
      (fun v => v.email == trim email && v.serviceId == serviceId) = some u)
    (hprov : u.emailInfo.bind (·.provider) = some p) (hp : p ≠ "")
    (hhash : u.passwordInfo.bind (·.hash) = none) :
    authenticateUser bc cfg now st email password serviceId =
      .error (.linkedAccount p) ∧
    ∀ (bc2 : String → String → Bool) (input : String),
      comparePassword bc2 none input = false := by
  refine ⟨?_, fun bc2 input => rfl⟩
  rw [authenticateUser, hfind]
  dsimp only
  cases he : u.emailInfo with
  | none => rw [he] at hprov; cases hprov
  | some e =>
    rw [he] at hprov
    simp only [Option.some_bind] at hprov
    cases hpi : u.passwordInfo with
    | none => simp [he, hpi, hprov, hp]
    | some pi =>
      rw [hpi] at hhash
      simp only [Option.some_bind] at hhash
      simp [he, hpi, hprov, hp, hhash]

/-- C5 witness: a verified Google-linked account with a null hash is
rejected with the linked-account error naming google. -/
theorem authenticate_linked_account_gate_witness :
    authenticateUser (fun _ _ => true)
        { maxLoginAttempts := 5, loginLockTime := 15 } 0
        { users := [{ emptyProviderUser with
            emailInfo := some
              { isVerified := true
                verificationToken := none
                verificationExpires := none
                pendingEmail := none
                provider := some "google" } }],
          sessions := [] } "a@x" "pw" "s1" =
      .error (.linkedAccount "google") :=
  (authenticate_linked_account_gate (fun _ _ => true) ⟨5, 15⟩ 0
    { users := [{ emptyProviderUser with
        emailInfo := some
          { isVerified := true
            verificationToken := none
            verificationExpires := none
            pendingEmail := none
            provider := some "google" } }],
      sessions := [] } "a@x" "pw" "s1"
    { emptyProviderUser with
      emailInfo := some
        { isVerified := true
          verificationToken := none
          verificationExpires := none
          pendingEmail := none
          provider := some "google" } } "google" rfl rfl (by decide) rfl).1

/-- C6 counterexample: in the single-email-key generation,
sendPasswordResetEmail on an address with no matching account does not
silently no-op — it raises the 404 no-account error. -/
theorem sendPasswordReset_absent_errors :
    SingleKey.sendPasswordResetEmail (fun s => s) "rt" 0
        { users := [], sessions := [] } "a@x" =
      ({ users := [], sessions := [] }, [], some .noAccountWithEmail) := rfl

/-- C6 amended: in the tenant-scoped generation, sendPasswordResetEmail
on an address with no matching account in the tenant silently no-ops —
no error, no email sent, store unchanged; in the single-email-key
generation the same situation raises the 404 no-account error instead
(and its existence check can additionally delete an unverified matching
account before the error, see the frame-effect theorem of
checkUserExists). -/
theorem sendPasswordReset_absent_behavior
    (hashData : String → String) (freshResetToken : String) (now : Int)
    (st : TState) (email service : String)
    (st6 : SingleKey.State) (email6 : String) :
    (st.users.find? (fun u => u.email == email && u.serviceId == service) = none →
      sendPasswordResetEmail hashData freshResetToken now st email service =
        (st, [], none)) ∧
    (st6.users.find? (fun u => u.email == email6) = none →
      SingleKey.sendPasswordResetEmail hashData freshResetToken now st6 email6 =
        (st6, [], some .noAccountWithEmail)) := by
  constructor
  · intro h
    rw [sendPasswordResetEmail, h]
  · intro h
    rw [SingleKey.sendPasswordResetEmail, SingleKey.checkUserExists, h]

/-- C6 witness: on the empty store the tenant-scoped operation returns
unchanged state, an empty email list and no error. -/
theorem sendPasswordReset_absent_behavior_witness :
    sendPasswordResetEmail (fun s => s) "rt" 0
        { users := [], sessions := [] } "a@x" "s1" =
      ({ users := [], sessions := [] }, [], none) :=
  (sendPasswordReset_absent_behavior (fun s => s) "rt" 0
    { users := [], sessions := [] } "a@x" "s1"
    { users := [], sessions := [] } "a@x").1 rfl

/-- C10: in the single-email-key generation, checkUserExists is not a
read-only query: when the first account carrying the given email is
unverified (or lacks its email-credential row), the check deletes that
account and reports not-exists; consequently sendPasswordResetEmail and
updateEmailWithVerification, which call it as an availability check,
leave no account with that id in the store. -/
theorem checkUserExists_deletes_unverified
    (hashData : String → String) (freshToken : String) (now : Int)
    (st : SingleKey.State) (u : SingleKey.User) (email : String)
    (hfind : st.users.find? (fun v => v.email == email) = some u)
    (hunv : (match u.emailInfo with | some e => e.isVerified | none => false) = false) :
    SingleKey.checkUserExists st email = (SingleKey.deleteUserById u.id st, none) ∧
    (∀ v ∈ (SingleKey.checkUserExists st email).1.users, v.id ≠ u.id) ∧
    (∀ v ∈ (SingleKey.sendPasswordResetEmail hashData freshToken now st email).1.users,
      v.id ≠ u.id) ∧
    (∀ userId, userId ≠ u.id →
      (st.users.find? (fun v => v.id == userId)).isSome →
      ∀ v ∈ (SingleKey.updateEmailWithVerification hashData freshToken now st
        userId email).1.users, v.id ≠ u.id) := by
  have h1 : SingleKey.checkUserExists st email = (SingleKey.deleteUserById u.id st, none) := by
    rw [SingleKey.checkUserExists, hfind]
    dsimp only
    rw [if_neg (by simp [hunv])]
  have hdel : ∀ v ∈ (SingleKey.deleteUserById u.id st).users, v.id ≠ u.id := by
    intro v hv
    have := (List.mem_filter.mp hv).2
    simpa using this
  refine ⟨h1, ?_, ?_, ?_⟩
  · rw [h1]
    exact hdel
  · rw [SingleKey.sendPasswordResetEmail, h1]
    exact hdel
  · intro userId hneq hsome v hv
    cases hg : st.users.find? fun v => v.id == userId with
    | none => rw [hg] at hsome; cases hsome
    | some r =>
      have hget : SingleKey.getUserById userId st = .ok r := by
        rw [SingleKey.getUserById, hg]
      rw [SingleKey.updateEmailWithVerification, hget, h1] at hv
      dsimp only [SingleKey.State.updateUser] at hv
      obtain ⟨w, hw, rfl⟩ := List.mem_map.mp hv
      have hid : (if w.id == userId then
          { w with
              emailInfo := some (match w.emailInfo with
                | some e =>
                  { e with
                      pendingEmail := some (trim email)
                      token := some (hashData freshToken)
                      tokenExpires := some (now + SingleKey.emailTokenExpiryMinutes) }
                | none =>
                  { isVerified := false
                    token := some (hashData freshToken)
                    tokenExpires := some (now + SingleKey.emailTokenExpiryMinutes)
                    pendingEmail := some (trim email) }) }
        else w).id = w.id := by
        split <;> rfl
      rw [hid]
      exact hdel w hw

/-- A requesting account used to witness the existence-check side
effect. -/
def requesterRow : SingleKey.User :=
  { id := "u1"
    email := "r@x"
    provider := none
    emailInfo := some
      { isVerified := true, token := none, tokenExpires := none, pendingEmail := none }
    passwordInfo := none
    lockoutInfo := none }

/-- An unverified account holding the probed email address. -/
def unverifiedHolderRow : SingleKey.User :=
  { id := "u2"
    email := "e@x"
    provider := none
    emailInfo := some
      { isVerified := false, token := none, tokenExpires := none, pendingEmail := none }
    passwordInfo := none
    lockoutInfo := none }

/-- C10 witness: on a concrete store holding a requester and an
unverified account with the probed address, the check deletes the
unverified account and reports not-exists. -/
theorem checkUserExists_deletes_unverified_witness :
    SingleKey.checkUserExists
        { users := [requesterRow, unverifiedHolderRow], sessions := [] } "e@x" =
      ({ users := [requesterRow], sessions := [] }, none) :=
  (checkUserExists_deletes_unverified (fun s => s) "ft" 0
    { users := [requesterRow, unverifiedHolderRow], sessions := [] }
    unverifiedHolderRow "e@x" rfl rfl).1

/-- A verified tenant-scoped account holding a valid reset token, with
three failed attempts recorded but the cached locked flag clear. -/
def countThreeUser : UserDetails :=
  { id := "u1"
    email := "a@x"
    serviceId := "s1"
    lastLoginAt := none
    emailInfo := some
      { isVerified := true
        verificationToken := none
        verificationExpires := none
        pendingEmail := none
        provider := none }
    passwordInfo := some
      { hash := some "oldhash", resetToken := some "tok", resetExpires := some 100 }
    lockoutInfo := some
      { isLocked := false, lockedUntil := none, failedAttemptCount := 3 } }

/-- An unverified single-email-key account holding a valid reset token
and a lockout record with two failed attempts. -/
def singleResetUser : SingleKey.User :=
  { id := "u1"
    email := "a@x"
    provider := none
    emailInfo := some
      { isVerified := false, token := none, tokenExpires := none, pendingEmail := none }
    passwordInfo := some
      { hash := some "old", token := some "tok", tokenExpires := some 100 }
    lockoutInfo := some { failedAttemptCount := 2, lockedUntil := none } }

/-- C3 counterexample: in the tenant-scoped generation, a successful
password reset on an account with a non-zero failed-attempt counter but
a clear cached locked flag does not clear the lockout state — the
counter survives at 3 because the lockout update is guarded by the
flag. -/
theorem resetPassword_keeps_counter_not_flagged :
    resetPasswordWithToken (fun s => s) "newhash" "tok" 0
        { users := [countThreeUser], sessions := [] } =
      .ok { users := [{ countThreeUser with
              passwordInfo := some
                { hash := some "newhash", resetToken := none, resetExpires := none } }]
            sessions := [] } ∧
    ({ countThreeUser with
        passwordInfo := some
          { hash := some "newhash", resetToken := none, resetExpires := none } }).lockoutInfo =
      some { isLocked := false, lockedUntil := none, failedAttemptCount := 3 } :=
  ⟨rfl, rfl⟩

/-- C3 amended: in the tenant-scoped generation, a successful reset
clears the lockout state only when the account's cached isLocked flag
is set; when the flag is clear the lockout row — including a non-zero
failed-attempt counter — is left untouched.  The single-email-key
generation instead deletes the lockout record unconditionally. -/
theorem resetPassword_lockout_policy
    (hashData : String → String) (newHash token : String) (now : Int)
    (st : TState) (u : UserDetails)
    (st6 : SingleKey.State) (u6 : SingleKey.User)
    (hfind : st.users.find? (fun v =>
      match v.passwordInfo with
      | some p =>
        p.resetToken == some (hashData token) &&
          (match p.resetExpires with
            | some e => decide (now < e)
            | none => false)
      | none => false) = some u)
    (hnodup : (st.users.map (·.id)).Nodup)
    (hfind6 : st6.users.find? (fun v =>
      match v.passwordInfo with
      | some p =>
        p.token == some (hashData token) &&
          (match p.tokenExpires with
            | some e => decide (now < e)
            | none => false)
      | none => false) = some u6)
    (hnodup6 : (st6.users.map (·.id)).Nodup) :
    ((match u.lockoutInfo with | some l => l.isLocked | none => false) = false →
      (resetPasswordWithToken hashData newHash token now st).map
          (fun st2 => (st2.users.find? fun v => v.id == u.id).map (·.lockoutInfo)) =
        .ok (some u.lockoutInfo)) ∧
    ((match u.lockoutInfo with | some l => l.isLocked | none => false) = true →
      (resetPasswordWithToken hashData newHash token now st).map
          (fun st2 => (st2.users.find? fun v => v.id == u.id).map (·.lockoutInfo)) =
        .ok (some (u.lockoutInfo.map fun l =>
          { l with isLocked := false, lockedUntil := none, failedAttemptCount := 0 }))) ∧
    (SingleKey.resetPasswordWithToken hashData newHash token now st6).map
        (fun st7 => (st7.users.find? fun v => v.id == u6.id).map (·.lockoutInfo)) =
      .ok (some (none : Option SingleKey.LockoutInfo)) := by
  have hmem := List.mem_of_find?_eq_some hfind
  have hmem6 := List.mem_of_find?_eq_some hfind6
  have hrw := resetPasswordWithToken_found hashData newHash token now st u hfind
  have hrw6 := resetPasswordWithToken_found_single hashData newHash token now st6 u6 hfind6
  have hfa := find_after_update (fun v => v.id)
    (applyResetUpdates newHash
      (match u.lockoutInfo with | some l => l.isLocked | none => false)
      (!(match u.emailInfo with | some e => e.isVerified | none => false)))
    (fun v => rfl) st.users u hmem hnodup
  have hfa6 := find_after_update (fun v => v.id)
    (fun v => { v with
        passwordInfo := some { hash := some newHash, token := none, tokenExpires := none }
        lockoutInfo := none })
    (fun v => rfl) st6.users u6 hmem6 hnodup6
  refine ⟨?_, ?_, ?_⟩
  · intro hflag
    rw [hrw]
    simp only [Except.map]
    rw [hfa]
    simp [applyResetUpdates, hflag]
  · intro hflag
    rw [hrw]
    simp only [Except.map]
    rw [hfa]
    simp [applyResetUpdates, hflag]
  · rw [hrw6]
    simp only [Except.map]
    rw [hfa6]
    simp

/-- C3 witness: the flag-clear branch applied at the concrete
three-failure account — the surviving lockout row still shows counter
3 — and the single-email-key reset deletes the concrete lockout record. -/
theorem resetPassword_lockout_policy_witness :
    (resetPasswordWithToken (fun s => s) "newhash" "tok" 0
        { users := [countThreeUser], sessions := [] }).map
        (fun st2 => (st2.users.find? fun v => v.id == "u1").map (·.lockoutInfo)) =
      .ok (some (some { isLocked := false, lockedUntil := none, failedAttemptCount := 3 })) :=
  (resetPassword_lockout_policy (fun s => s) "newhash" "tok" 0
    { users := [countThreeUser], sessions := [] } countThreeUser
    { users := [singleResetUser], sessions := [] } singleResetUser
    rfl (by decide) rfl (by decide)).1 rfl

/-- C7 counterexample: in the single-email-key generation, a successful
password reset on an unverified account does not mark the email
verified — the email credential row is untouched by the reset, so
isVerified stays false. -/
theorem resetPassword_leaves_unverified :
    SingleKey.resetPasswordWithToken (fun s => s) "newhash" "tok" 0
        { users := [singleResetUser], sessions := [] } =
      .ok { users := [{ singleResetUser with
              passwordInfo := some
                { hash := some "newhash", token := none, tokenExpires := none }
              lockoutInfo := none }]
            sessions := [] } ∧
    ({ singleResetUser with
        passwordInfo := some
          { hash := some "newhash", token := none, tokenExpires := none }
        lockoutInfo := none } : SingleKey.User).emailInfo =
      some { isVerified := false, token := none, tokenExpires := none, pendingEmail := none } :=
  ⟨rfl, rfl⟩

/-- C7 amended: in the tenant-scoped generation a successful reset
leaves the account's email credential verified (flipping it when it was
unverified) and revokes every session of the account; in the
single-email-key generation the reset revokes every session but leaves
the email credential row — including its verified flag — unchanged. -/
theorem resetPassword_verify_and_sessions
    (hashData : String → String) (newHash token : String) (now : Int)
    (st : TState) (u : UserDetails)
    (st6 : SingleKey.State) (u6 : SingleKey.User)
    (hfind : st.users.find? (fun v =>
      match v.passwordInfo with
      | some p =>
        p.resetToken == some (hashData token) &&
          (match p.resetExpires with
            | some e => decide (now < e)
            | none => false)
      | none => false) = some u)
    (hnodup : (st.users.map (·.id)).Nodup)
    (hfind6 : st6.users.find? (fun v =>
      match v.passwordInfo with
      | some p =>
        p.token == some (hashData token) &&
          (match p.tokenExpires with
            | some e => decide (now < e)
            | none => false)
      | none => false) = some u6)
    (hnodup6 : (st6.users.map (·.id)).Nodup) :
    ((resetPasswordWithToken hashData newHash token now st).map
        (fun st2 => (st2.users.find? fun v => v.id == u.id).map
          (fun v => v.emailInfo.map (·.isVerified))) =
      .ok (some (u.emailInfo.map fun _ => true))) ∧
    ((resetPasswordWithToken hashData newHash token now st).map (·.sessions) =
      .ok (st.sessions.filter fun s => s.userId != u.id)) ∧
    ((SingleKey.resetPasswordWithToken hashData newHash token now st6).map
        (fun st7 => (st7.users.find? fun v => v.id == u6.id).map (·.emailInfo)) =
      .ok (some u6.emailInfo)) ∧
    ((SingleKey.resetPasswordWithToken hashData newHash token now st6).map (·.sessions) =
      .ok (st6.sessions.filter fun s => s.userId != u6.id)) := by
  have hmem := List.mem_of_find?_eq_some hfind
  have hmem6 := List.mem_of_find?_eq_some hfind6
  have hrw := resetPasswordWithToken_found hashData newHash token now st u hfind
  have hrw6 := resetPasswordWithToken_found_single hashData newHash token now st6 u6 hfind6
  have hfa := find_after_update (fun v => v.id)
    (applyResetUpdates newHash
      (match u.lockoutInfo with | some l => l.isLocked | none => false)
      (!(match u.emailInfo with | some e => e.isVerified | none => false)))
    (fun v => rfl) st.users u hmem hnodup
  have hfa6 := find_after_update (fun v => v.id)
    (fun v => { v with
        passwordInfo := some { hash := some newHash, token := none, tokenExpires := none }
        lockoutInfo := none })
    (fun v => rfl) st6.users u6 hmem6 hnodup6
  refine ⟨?_, ?_, ?_, ?_⟩
  · rw [hrw]
    simp only [Except.map]
    rw [hfa]
    cases he : u.emailInfo with
    | none => simp [applyResetUpdates, he]
    | some e => cases hv : e.isVerified <;> simp [applyResetUpdates, he, hv]
  · rw [hrw]
    rfl
  · rw [hrw6]
    simp only [Except.map]
    rw [hfa6]
    rfl
  · rw [hrw6]
    rfl

/-- C7 witness: at a concrete locked, unverified tenant-scoped account
with a valid reset token, the reset leaves the email credential
verified. -/
theorem resetPassword_verify_and_sessions_witness :
    (resetPasswordWithToken (fun s => s) "newhash" "tok" 0
        { users := [{ countThreeUser with
            emailInfo := some
              { isVerified := false
                verificationToken := some "vt"
                verificationExpires := some 50
                pendingEmail := none
                provider := none }
            lockoutInfo := some
              { isLocked := true, lockedUntil := some 100, failedAttemptCount := 5 } }],
          sessions := [] }).map
        (fun st2 => (st2.users.find? fun v => v.id == "u1").map
          (fun v => v.emailInfo.map (·.isVerified))) =
      .ok (some (some true)) :=
  (resetPassword_verify_and_sessions (fun s => s) "newhash" "tok" 0
    { users := [{ countThreeUser with
        emailInfo := some
          { isVerified := false
            verificationToken := some "vt"
            verificationExpires := some 50
            pendingEmail := none
            provider := none }
        lockoutInfo := some
          { isLocked := true, lockedUntil := some 100, failedAttemptCount := 5 } }],
      sessions := [] }
    { countThreeUser with
      emailInfo := some
        { isVerified := false
          verificationToken := some "vt"
          verificationExpires := some 50
          pendingEmail := none
          provider := none }
      lockoutInfo := some
        { isLocked := true, lockedUntil := some 100, failedAttemptCount := 5 } }
    { users := [singleResetUser], sessions := [] } singleResetUser
    rfl (by decide) rfl (by decide)).1

/-- A single-email-key account with an unexpired verification token and
a pending email change in flight. -/
def pendingChangeUser : SingleKey.User :=
  { id := "u1"
    email := "old@x"
    provider := none
    emailInfo := some
      { isVerified := false
        token := some "tok"
        tokenExpires := some 100
        pendingEmail := some "new@x" }
    passwordInfo := none
    lockoutInfo := none }

/-- A tenant-scoped account with an unexpired verification token and a
pending email change in flight. -/
def tenantPendingUser : UserDetails :=
  { id := "u1"
    email := "old@x"
    serviceId := "s1"
    lastLoginAt := none
    emailInfo := some
      { isVerified := true
        verificationToken := some "tok"
        verificationExpires := some 100
        pendingEmail := some "new@x"
        provider := none }
    passwordInfo := none
    lockoutInfo := none }

/-- C4 counterexample: in the single-email-key generation the
email-change verification is two separate awaits with no transaction;
after the first write the store already shows the new primary email
while the email credential row is untouched — verified still false,
token and pending email still set — so an interruption between the two
writes exposes exactly the partial state the claim rules out. -/
theorem verifyEmail_partial_state :
    SingleKey.verifyEmailWrites (fun s => s) "tok" 0
        { users := [pendingChangeUser], sessions := [] } =
      .ok [.setEmail "u1" "new@x", .markVerified "u1"] ∧
    SingleKey.applyWrites [.setEmail "u1" "new@x"]
        { users := [pendingChangeUser], sessions := [] } =
      { users := [{ pendingChangeUser with email := "new@x" }], sessions := [] } ∧
    ({ pendingChangeUser with email := "new@x" } : SingleKey.User).emailInfo =
      some { isVerified := false
             token := some "tok"
             tokenExpires := some 100
             pendingEmail := some "new@x" } :=
  ⟨rfl, rfl, rfl⟩

/-- C4 amended: in the tenant-scoped generation the promotion and the
verified flip are wrapped in one transaction — the read phase yields a
single atomic unit, so every interrupted execution observes either the
untouched store or the fully committed store.  In the single-email-key
generation the same flow is two separate writes, and the state after
the first one already carries the new primary email on an otherwise
unchanged row. -/
theorem verifyEmail_atomicity
    (hashData : String → String) (token : String) (now : Int)
    (st : TState) (units : List (List TWrite))
    (st6 : SingleKey.State) (u6 : SingleKey.User) (pe : String)
    (hok : verifyEmailUnits hashData token now st = .ok units)
    (hfind6 : st6.users.find? (fun v =>
      match v.emailInfo with
      | some e =>
        e.token == some (hashData token) &&
          (match e.tokenExpires with
            | some x => decide (now < x)
            | none => false)
      | none => false) = some u6)
    (hpend : u6.emailInfo.bind (·.pendingEmail) = some pe)
    (hnodup6 : (st6.users.map (·.id)).Nodup) :
    (units.length = 1 ∧
      ∀ k, applyTUnits (units.take k) st = st ∨
        applyTUnits (units.take k) st = applyTUnits units st) ∧
    SingleKey.verifyEmailWrites hashData token now st6 =
      .ok [.setEmail u6.id pe, .markVerified u6.id] ∧
    ((SingleKey.applyWrites [SingleKey.Write.setEmail u6.id pe] st6).users.find?
        fun v => v.id == u6.id) = some { u6 with email := pe } := by
  have hmem6 := List.mem_of_find?_eq_some hfind6
  refine ⟨?_, ?_, ?_⟩
  · rw [verifyEmailUnits] at hok
    cases hfind : st.users.find? (fun u =>
        match u.emailInfo with
        | some e =>
          e.verificationToken == some (hashData token) &&
            (match e.verificationExpires with
              | some x => decide (now < x)
              | none => false)
        | none => false) with
    | none => rw [hfind] at hok; cases hok
    | some u =>
      rw [hfind] at hok
      dsimp only at hok
      cases hpe : u.emailInfo.bind (·.pendingEmail) with
      | none =>
        rw [hpe] at hok
        dsimp only at hok
        cases hok
        refine ⟨rfl, ?_⟩
        intro k
        match k with
        | 0 => exact Or.inl rfl
        | Nat.succ k =>
          exact Or.inr (by rw [List.take_of_length_le (by simp)])
      | some pe2 =>
        rw [hpe] at hok
        dsimp only at hok
        by_cases htaken : st.users.any (fun v => v.email == pe2 && v.id != u.id)
        · rw [if_pos htaken] at hok; cases hok
        · rw [if_neg htaken] at hok
          cases hok
          refine ⟨rfl, ?_⟩
          intro k
          match k with
          | 0 => exact Or.inl rfl
          | Nat.succ k =>
          exact Or.inr (by rw [List.take_of_length_le (by simp)])
  · rw [SingleKey.verifyEmailWrites, hfind6]
    dsimp only
    rw [hpend]
  · have hfa6 := find_after_update (fun v => v.id)
      (fun v => { v with email := pe })
      (fun v => rfl) st6.users u6 hmem6 hnodup6
    dsimp only [SingleKey.applyWrites, SingleKey.applyWrite, List.foldl,
      SingleKey.State.updateUser]
    exact hfa6

/-- C4 witness: on the concrete tenant-scoped store with a pending
change, the read phase yields exactly one atomic unit whose commit both
promotes the email and flips the verified flag; the extracted component
is the single-email-key write sequence at its concrete store. -/
theorem verifyEmail_atomicity_witness :
    SingleKey.verifyEmailWrites (fun s => s) "tok" 0
        { users := [pendingChangeUser], sessions := [] } =
      .ok [.setEmail "u1" "new@x", .markVerified "u1"] :=
  (verifyEmail_atomicity (fun s => s) "tok" 0
    { users := [tenantPendingUser], sessions := [] }
    [[.promoteEmail "u1" "new@x", .markVerifiedClear "u1"]]
    { users := [pendingChangeUser], sessions := [] } pendingChangeUser "new@x"
    rfl rfl rfl (by decide)).2.1

end Credlock
